import Mathlib

/-!
Shallow embedding of the command-dispatch and points-economy core of the
singularity chat bot, together with theorems settling the specification
claims about it.

Embedded source files:
* `src/main/components/bot/extensions/points/component.js` (points economy)
* `src/renderer/bot/index.js` (dispatcher `Core.runCommand`, `Core.on`)
* `src/app/bot/core.js` (legacy `core.command.getCooldown`)

Database tables are modelled as association lists, `db.get` as a first-match
lookup returning `Option` (a missing row reads as JS `null`), and the shared
mutable caches (`$.cache`) as explicit record state threaded through the
payout job.
-/

namespace Singularity

/-- Runtime errors raised by the embedded JavaScript. A strict-mode ES module
raises a `ReferenceError` when it reads an undeclared identifier. -/
inductive JsError
  | referenceError
deriving DecidableEq

/-- Row of the `users` table (the columns the points economy reads). -/
structure UserRow where
  permission : Int
  rank : Int
  points : Int
deriving DecidableEq

/-- Bot database fragment used by the points component: `commands` and
`subcommands` keyed by `name` with their `price` column, `users` keyed by
`name`, `ranks` keyed by `name` (an integer rank id) with their `bonus`
column, and `groups` keyed by `level` with their `bonus` column. -/
structure DB where
  commands : List (String × Int)
  subcommands : List (String × Int)
  users : List (String × UserRow)
  ranks : List (Int × Int)
  groups : List (Int × Int)
deriving DecidableEq

/-- `$.db.get(table, column, { name: key })` over a string-keyed table:
the column value of the first matching row, or `none` (JS `null`). -/
def dbGet (rows : List (String × Int)) (key : String) : Option Int :=
  (rows.find? (fun r => r.1 == key)).map Prod.snd

/-- `$.db.get(table, column, where)` over an integer-keyed table. -/
def dbGetInt (rows : List (Int × Int)) (key : Int) : Option Int :=
  (rows.find? (fun r => r.1 == key)).map Prod.snd

/-- `$.db.getRow('users', { name: user })`. -/
def dbGetRow (db : DB) (user : String) : Option UserRow :=
  (db.users.find? (fun r => r.1 == user)).map Prod.snd

/-- Points column of a user row, for stating theorems about balances. -/
def dbPoints (db : DB) (user : String) : Option Int :=
  (dbGetRow db user).map UserRow.points

/-- `getCommandPrice(cmd, sub)`: with no subcommand, the price stored in
`commands` under `cmd`; otherwise the source reads
`$.db.get('subcommands', 'price', { name: cmd })` — note the lookup key is
the parent command name `cmd`, the `sub` argument only selects the table —
and falls back to the parent price when the stored value is the `-1`
sentinel. -/
def getCommandPrice (db : DB) (cmd : String) (sub : Option String) : Option Int :=
  match sub with
  | none => dbGet db.commands cmd
  | some _ =>
    let res := dbGet db.subcommands cmd
    if res = some (-1) then dbGet db.commands cmd else res

/-- Price resolution as the specification words it: the price stored for the
subcommand entry (keyed by the subcommand name), the `-1` sentinel meaning
"inherit the parent price". Used only to compare against `getCommandPrice`. -/
def specCommandPrice (db : DB) (cmd : String) (sub : Option String) : Option Int :=
  match sub with
  | none => dbGet db.commands cmd
  | some s =>
    let res := dbGet db.subcommands s
    if res = some (-1) then dbGet db.commands cmd else res

/-- `getUserPoints(user)` (the non-string branch):
`$.db.get('users', 'points', { name: user })`. -/
def getUserPoints (db : DB) (user : String) : Option Int :=
  (dbGetRow db user).map UserRow.points

/-- JS `>` on two values that may be `null`: `null` coerces to `0`. -/
def jsGt (a b : Option Int) : Bool :=
  decide (a.getD 0 > b.getD 0)

/-- `canAffordCommand(user, command, subcommand)`: fetches the resolved price
and the user balance and returns `[points > price, points, price]`. -/
def canAffordCommand (db : DB) (user command : String) (subcommand : Option String) :
    Bool × Option Int × Option Int :=
  let price := getCommandPrice db command subcommand
  let points := getUserPoints db user
  (jsGt points price, points, price)

/-! ### Payout job (`run` in the points component) -/

/-- Settings store consulted by the payout job, one field per settings key
(`none` when the key has never been set; `$.settings.get` then yields the
supplied default). -/
structure SettingsStore where
  pointsPayoutLive : Option Int
  pointsPayoutOffline : Option Int
  pointsIntervalLive : Option Int
  pointsIntervalOffline : Option Int
deriving DecidableEq

/-- `getPayoutAmount(offline)`: live default `6`, offline default `-1`. -/
def getPayoutAmount (s : SettingsStore) (offline : Bool) : Int :=
  if !offline then s.pointsPayoutLive.getD 6 else s.pointsPayoutOffline.getD (-1)

/-- `getPayoutInterval(offline)`: live default `5`, offline default `-1`. -/
def getPayoutInterval (s : SettingsStore) (offline : Bool) : Int :=
  if !offline then s.pointsIntervalLive.getD 5 else s.pointsIntervalOffline.getD (-1)

/-- `getRankBonus(rank)`: the stored bonus when the lookup produced a number,
otherwise `0`. -/
def getRankBonus (db : DB) (rank : Int) : Int :=
  match dbGetInt db.ranks rank with
  | some storedRankBonus => storedRankBonus
  | none => 0

/-- `getGroupBonus(group)` as called from the payout job, where `group` is the
integer `permission` column, so the `$.is.number(group)` branch runs: the
source looks the bonus up into `storedGroupBonus` but then executes
`return _storedGroupBonus || 0`, and `_storedGroupBonus` is undeclared, so a
strict-mode module raises a `ReferenceError` instead of returning. -/
def getGroupBonus (db : DB) (group : Int) : Except JsError Int :=
  let _ := dbGetInt db.groups group
  Except.error JsError.referenceError

/-- Bonus expression of the payout loop:
`await getRankBonus(res.rank) || await getGroupBonus(res.permission)` —
the group lookup runs only when the rank bonus is falsy (zero). -/
def resolveBonus (db : DB) (res : UserRow) : Except JsError Int :=
  let rankBonus := getRankBonus db res.rank
  if rankBonus ≠ 0 then Except.ok rankBonus
  else getGroupBonus db res.permission

/-- The `$.cache` entries the payout job reads and writes (`none` before the
first write; `$.cache.get` then yields the supplied default). -/
structure Cache where
  lastPayout : Option Int
  lastUserList : Option (List String)
deriving DecidableEq

/-- Mutable state touched by one payout run: the bot database and the cache. -/
structure PayoutState where
  db : DB
  cache : Cache
deriving DecidableEq

/-- Ambient inputs of one payout run: stream state, clock, channel identity,
the current chat user list and the settings store. -/
structure PayoutEnv where
  isLive : Bool
  now : Int
  botName : String
  userList : List String
  settings : SettingsStore

/-- How one payout run ended: an early `return` before the payment loop, a
completed loop followed by the cache updates, or an unhandled rejection
propagating out of the loop (the cache updates are then never reached). -/
inductive RunOutcome
  | skipped
  | completed
  | crashed (e : JsError)
deriving DecidableEq

/-- `users.points += payout + bonus` for a single user row. -/
def incrPoints (db : DB) (user : String) (amount : Int) : DB :=
  { db with
    users := db.users.map fun r =>
      if r.1 == user then (r.1, { r.2 with points := r.2.points + amount }) else r }

/-- Body of the payout loop for one user: skip the bot account, skip users
missing from the previous cycle user list, skip users without a row, otherwise
resolve the bonus (which can raise) and credit `payout + bonus`. -/
def payUser (env : PayoutEnv) (lastUserList : List String) (payout : Int)
    (db : DB) (user : String) : Except JsError DB :=
  if user == env.botName then Except.ok db
  else if !(lastUserList.contains user) then Except.ok db
  else
    match dbGetRow db user with
    | none => Except.ok db
    | some res =>
      match resolveBonus db res with
      | Except.error e => Except.error e
      | Except.ok bonus => Except.ok (incrPoints db user (payout + bonus))

/-- The payout loop over the user list. The source runs it with
`Promise.map`; each iteration touches only its own user row, so the
sequential model below computes the same rows, and the first raised error
rejects the whole loop before the cache updates. -/
def payAll (env : PayoutEnv) (lastUserList : List String) (payout : Int) :
    DB → List String → DB × Option JsError
  | db, [] => (db, none)
  | db, user :: rest =>
    match payUser env lastUserList payout db user with
    | Except.error e => (db, some e)
    | Except.ok db' => payAll env lastUserList payout db' rest

/-- The payout job `run()`. Branch selection mirrors the source: when live,
a positive amount and interval gate the due check (`nextLivePayout >= now`
returns early) and set the payout — but a non-positive live configuration
falls through with `payout` still `0` instead of returning; when offline, a
non-positive configuration returns early. After the loop both cache entries
are replaced. -/
def run (env : PayoutEnv) (st : PayoutState) : PayoutState × RunOutcome :=
  let now := env.now
  let lastPayout := st.cache.lastPayout.getD 0
  let liveInt := getPayoutInterval env.settings false
  let offInt := getPayoutInterval env.settings true
  let liveAmt := getPayoutAmount env.settings false
  let offAmt := getPayoutAmount env.settings true
  let nextLivePayout := lastPayout + liveInt * 60 * 1000
  let nextOfflinePayout := lastPayout + offInt * 60 * 1000
  let payoutChoice : Option Int :=
    if env.isLive then
      if liveAmt > 0 ∧ liveInt > 0 then
        if nextLivePayout ≥ now then none else some liveAmt
      else some 0
    else
      if offAmt > 0 ∧ offInt > 0 then
        if nextOfflinePayout ≥ now then none else some offAmt
      else none
  match payoutChoice with
  | none => (st, RunOutcome.skipped)
  | some payout =>
    let lastUserList := st.cache.lastUserList.getD []
    match payAll env lastUserList payout st.db env.userList with
    | (db', some e) => ({ st with db := db' }, RunOutcome.crashed e)
    | (db', none) =>
      ({ db := db',
         cache := { lastPayout := some now, lastUserList := some env.userList } },
       RunOutcome.completed)

/-! ### Dispatcher (`Core.runCommand` in `src/renderer/bot/index.js`) -/

/-- Inbound chat event: `{ command, args, sender, whispered, groupID }`. -/
structure BotEvent where
  command : String
  args : List String
  sender : String
  whispered : Bool
  groupID : Int

/-- Collaborators the dispatcher consults, at their interface boundary:
extension-config flags, the registry facade (`this.command.*`), the points
facade and the resolved handler. `runnerResult` is the outcome of
`getRunner(command)(event, this)`: `Except.error` models a thrown error. -/
structure CoreEnv where
  pointsEnabled : Bool
  cooldownsEnabled : Bool
  commandExists : String → Option String → Bool
  commandIsEnabled : String → Option String → Bool
  commandPermission : String → Option String → Int
  isOnCooldown : String → String → Option String → Nat
  isCustom : String → Bool
  customResponse : String → String
  runnerResult : String → Except String Unit
  canAffordCommand : String → String → Option String → Bool × Int × Int

/-- Side effects accumulated by one dispatch, in the order the source would
commit them. -/
structure Effects where
  logs : List String
  whispers : List (String × String)
  said : List (String × String)
  invokedHandlers : List String
  cooldownsStarted : List (String × String × Option String)
  debits : List (String × Int)
  emitted : List String
deriving DecidableEq

/-- The empty effect record a dispatch starts from. -/
def Effects.empty : Effects :=
  ⟨[], [], [], [], [], [], []⟩

/-- Which stage a dispatch ended at. -/
inductive DispatchOutcome
  | notRegistered
  | disabled
  | onCooldown
  | noPermission
  | cannotAfford
  | handlerFailed (e : String)
  | completed
deriving DecidableEq

/-- Outcomes at or past the affordability stage (stage 7 of the pipeline). -/
def reachedAffordability : DispatchOutcome → Bool
  | DispatchOutcome.cannotAfford => true
  | DispatchOutcome.handlerFailed _ => true
  | DispatchOutcome.completed => true
  | _ => false

/-- Log line of the existence check. -/
def notRegisteredMsg (command : String) : String :=
  "\x27" ++ command ++ "\x27 is not a registered command"

/-- Log line of the enablement check. -/
def notEnabledMsg (command : String) (subcommand : Option String) : String :=
  "\x27" ++ command ++ (match subcommand with
    | some s => " " ++ s
    | none => "") ++ "\x27 is installed but is not enabled"

/-- Log line of the cooldown check. -/
def cooldownLogMsg (command sender : String) (seconds : Nat) : String :=
  "\x27" ++ command ++ "\x27 is on cooldown for " ++ sender ++
    " (" ++ toString seconds ++ " seconds)"

/-- Whisper sent by the cooldown check. -/
def cooldownNoticeMsg (command : String) (seconds : Nat) : String :=
  "You need to wait " ++ toString seconds ++ " seconds to use !" ++ command ++ " again."

/-- Log line of the permission check. -/
def permissionLogMsg (command sender : String) : String :=
  sender ++ " does not have sufficient permissions to use !" ++ command

/-- Whisper sent by the permission check. -/
def permissionNoticeMsg (command : String) : String :=
  "You don\x27t have what it takes to use !" ++ command ++ "."

/-- Log line of the affordability check. -/
def affordLogMsg (command sender : String) : String :=
  sender ++ " does not have enough points to use !" ++ command ++ "."

/-- Whisper sent by the affordability check. -/
def affordNoticeMsg (command : String) (price points : Int) : String :=
  "You don\x27t have enough points to use !" ++ command ++ ". » costs " ++
    toString price ++ ", you have " ++ toString points

/-- Name of the completion event:
`command:${command}${subcommand ? ':' + subcommand : ''}`. -/
def completionEventName (command : String) (subcommand : Option String) : String :=
  "command:" ++ command ++ (match subcommand with
    | some s => ":" ++ s
    | none => "")

/-- `getSubcommand(event)`: the lowercased first argument when it is non-empty
and `this.command.exists(command, cased)` holds, else no subcommand. (The
derived `subArgs`/`subArgString` fields do not feed any policy decision and
are not modelled.) -/
def getSubcommand (env : CoreEnv) (event : BotEvent) : Option String :=
  match event.args with
  | [] => none
  | query :: _ =>
    if query = "" then none
    else
      let cased := query.toLower
      if env.commandExists event.command (some cased) then some cased else none

/-- Side-effect commit and completion event (steps 9 and 10): start the
cooldown when cooldowns are enabled, debit the charge when the economy is
enabled and the charge is truthy (non-zero), then emit the completion
event. -/
def commitEffects (env : CoreEnv) (command sender : String)
    (subcommand : Option String) (charge : Int) (base : Effects) :
    Effects × DispatchOutcome :=
  let e1 :=
    if env.cooldownsEnabled then
      { base with cooldownsStarted := [(command, sender, subcommand)] }
    else base
  let e2 :=
    if env.pointsEnabled ∧ charge ≠ 0 then
      { e1 with debits := [(sender, charge)] }
    else e1
  ({ e2 with emitted := [completionEventName command subcommand] },
   DispatchOutcome.completed)

/-- `Core.runCommand(event)`: subcommand resolution, then the policy stages in
source order — existence, enablement, cooldown (only when cooldowns are
enabled), permission (`groupID > commandPermission` rejects), affordability
(only when the economy is enabled) — then execution (custom response or
handler invocation with a `try`/`catch` that logs and returns), then the
side-effect commit and the completion event. -/
def runCommand (env : CoreEnv) (event : BotEvent) : Effects × DispatchOutcome :=
  let command := event.command
  let sender := event.sender
  let subcommand := getSubcommand env event
  if !(env.commandExists command none) then
    ({ Effects.empty with logs := [notRegisteredMsg command] },
     DispatchOutcome.notRegistered)
  else if !(env.commandIsEnabled command subcommand) then
    ({ Effects.empty with logs := [notEnabledMsg command subcommand] },
     DispatchOutcome.disabled)
  else
    let cooldownActive := env.isOnCooldown command sender subcommand
    if env.cooldownsEnabled ∧ cooldownActive ≠ 0 then
      ({ Effects.empty with
          logs := [cooldownLogMsg command sender cooldownActive],
          whispers := [(sender, cooldownNoticeMsg command cooldownActive)] },
       DispatchOutcome.onCooldown)
    else if event.groupID > env.commandPermission command subcommand then
      ({ Effects.empty with
          logs := [permissionLogMsg command sender],
          whispers := [(sender, permissionNoticeMsg command)] },
       DispatchOutcome.noPermission)
    else
      let afford := env.canAffordCommand sender command subcommand
      if env.pointsEnabled ∧ afford.1 = false then
        ({ Effects.empty with
            logs := [affordLogMsg command sender],
            whispers := [(sender, affordNoticeMsg command afford.2.2 afford.2.1)] },
         DispatchOutcome.cannotAfford)
      else
        let charge := if env.pointsEnabled then afford.2.2 else 0
        if env.isCustom command then
          commitEffects env command sender subcommand charge
            { Effects.empty with said := [(sender, env.customResponse command)] }
        else
          match env.runnerResult command with
          | Except.error e =>
            ({ Effects.empty with invokedHandlers := [command], logs := [e] },
             DispatchOutcome.handlerFailed e)
          | Except.ok _ =>
            commitEffects env command sender subcommand charge
              { Effects.empty with invokedHandlers := [command] }

/-! ### Event bus (`Core.on` override) -/

/-- Listener list of the core event emitter; a listener is a
(channel, handler) pair, handlers identified by number. The wildcard
machinery of the underlying emitter is an external collaborator; emission is
modelled for plain channel names. -/
structure EventBus where
  listeners : List (String × Nat)
deriving DecidableEq

/-- `EventEmitter#off`/`removeListener`: removes the first registration of
the handler on the channel, if any. -/
def EventBus.off (b : EventBus) (channel : String) (fn : Nat) : EventBus :=
  ⟨b.listeners.erase (channel, fn)⟩

/-- `EventEmitter#on` of the underlying emitter: appends the listener. -/
def EventBus.superOn (b : EventBus) (channel : String) (fn : Nat) : EventBus :=
  ⟨b.listeners ++ [(channel, fn)]⟩

/-- `Core.on(channel, fn, single = true)`: with `single` set, first removes an
identical listener, then registers. -/
def EventBus.on (b : EventBus) (channel : String) (fn : Nat)
    (single : Bool := true) : EventBus :=
  let b' := if single then b.off channel fn else b
  b'.superOn channel fn

/-- Emission on a plain channel: the handlers invoked, in registration
order. -/
def EventBus.emitCalls (b : EventBus) (channel : String) : List Nat :=
  (b.listeners.filter (fun l => l.1 == channel)).map Prod.snd

/-! ### Legacy accessor (`core.command.getCooldown` in `src/app/bot/core.js`) -/

/-- `core.command.getCooldown(cmd)`:
`botStore.get(SELECT cooldown FROM commands WHERE name=cmd) || 30` — the
stored value when it is truthy, `30` when the lookup yields no row or the
stored value is the falsy `0`. -/
def getCooldown (store : String → Option Int) (cmd : String) : Int :=
  match store cmd with
  | none => 30
  | some v => if v = 0 then 30 else v

/-! ### Concrete fixtures used by witnesses and counterexamples -/

/-- Database where user ursa holds exactly the price of command trivia. -/
def dbC1 : DB :=
  { commands := [("trivia", 5)], subcommands := [],
    users := [("ursa", { permission := 1, rank := 1, points := 5 })],
    ranks := [], groups := [] }

/-- Database with distinct prices stored under the parent name and under the
subcommand name in the `subcommands` table. -/
def dbC3 : DB :=
  { commands := [("quote", 5)], subcommands := [("quote", 99), ("add", 10)],
    users := [], ranks := [], groups := [] }

/-- Live-stream environment with a configured live payout amount of 0. -/
def envC2 : PayoutEnv :=
  { isLive := true, now := 100, botName := "siribot", userList := ["alice"],
    settings := { pointsPayoutLive := some 0, pointsPayoutOffline := none,
                  pointsIntervalLive := none, pointsIntervalOffline := none } }

/-- State for the C2 run: alice was present last cycle and has rank bonus 3. -/
def stC2 : PayoutState :=
  { db := { commands := [], subcommands := [],
            users := [("alice", { permission := 1, rank := 1, points := 10 })],
            ranks := [(1, 3)], groups := [] },
    cache := { lastPayout := some 0, lastUserList := some ["alice"] } }

/-- Live-stream environment with default settings (amount 6, interval 5),
ten minutes after the last recorded payout, so a live payout is due. -/
def envC6 : PayoutEnv :=
  { isLive := true, now := 600000, botName := "siribot", userList := ["bob"],
    settings := { pointsPayoutLive := none, pointsPayoutOffline := none,
                  pointsIntervalLive := none, pointsIntervalOffline := none } }

/-- State for the C6 run: bob was present last cycle, has no rank bonus, and
his permission group has a configured bonus. -/
def stC6 : PayoutState :=
  { db := { commands := [], subcommands := [],
            users := [("bob", { permission := 1, rank := 1, points := 10 })],
            ranks := [], groups := [(1, 4)] },
    cache := { lastPayout := some 0, lastUserList := some ["bob"] } }

/-- Database for the bonus-precedence check: no rank bonus stored for rank 1,
a group bonus of 5 stored for permission level 2. -/
def dbC7 : DB :=
  { commands := [], subcommands := [], users := [], ranks := [], groups := [(2, 5)] }

/-- Dispatcher environment whose resolved handler throws. -/
def envC4 : CoreEnv :=
  { pointsEnabled := true, cooldownsEnabled := true,
    commandExists := fun _ _ => true, commandIsEnabled := fun _ _ => true,
    commandPermission := fun _ _ => 5, isOnCooldown := fun _ _ _ => 0,
    isCustom := fun _ => false, customResponse := fun _ => "",
    runnerResult := fun _ => Except.error "boom",
    canAffordCommand := fun _ _ _ => (true, 10, 1) }

/-- Event invoking the throwing handler. -/
def eventC4 : BotEvent :=
  { command := "trivia", args := [], sender := "alice", whispered := false,
    groupID := 0 }

/-- Dispatcher environment with no registered commands. -/
def envC5 : CoreEnv :=
  { envC4 with commandExists := fun _ _ => false }

/-- Event naming an unregistered command. -/
def eventC5 : BotEvent :=
  { command := "nope", args := [], sender := "alice", whispered := false,
    groupID := 0 }

/-- Dispatcher environment requiring permission level 2, with a working
handler. -/
def envC8 : CoreEnv :=
  { envC4 with commandPermission := fun _ _ => 2,
               runnerResult := fun _ => Except.ok () }

/-- Event from a sender whose group level 3 exceeds the threshold 2. -/
def eventC8 : BotEvent :=
  { command := "8ball", args := [], sender := "mallory", whispered := false,
    groupID := 3 }

/-- Legacy store holding a stored cooldown of 0 for the 8ball command and no
row for any other command. -/
def storeC10 : String → Option Int :=
  fun cmd => if cmd = "8ball" then some 0 else none

/-! ### Helper lemmas -/

/-- Counting one handler among the invocations of an emission equals counting
its (channel, handler) registration, whatever else is registered. -/
theorem count_filter_map_snd (L : List (String × Nat)) (channel : String) (fn : Nat) :
    ((L.filter (fun l => l.1 == channel)).map Prod.snd).count fn =
      L.count (channel, fn) := by
  induction L with
  | nil => rfl
  | cons hd tl ih =>
    cases hd with
    | mk c f =>
      by_cases hc : c = channel
      · subst hc
        by_cases hf : f = fn
        · subst hf; simp [List.count_cons, ih]
        · simp [List.count_cons, ih, hf, Prod.ext_iff]
      · simp [List.count_cons, ih, hc, Prod.ext_iff]

/-! ### Claim theorems -/

/-- Claim C1: `canAffordCommand` reports affordable exactly when the fetched
balance strictly exceeds the resolved price — a balance equal to the price is
not affordable — and the returned triple carries the fetched balance and
price unchanged. -/
theorem canAffordCommand_strict_greater (db : DB) (user command : String)
    (subcommand : Option String) (p q : Int)
    (hp : getUserPoints db user = some p)
    (hq : getCommandPrice db command subcommand = some q) :
    ((canAffordCommand db user command subcommand).1 = true ↔ q < p) ∧
    (p = q → (canAffordCommand db user command subcommand).1 = false) ∧
    (canAffordCommand db user command subcommand).2.1 = some p ∧
    (canAffordCommand db user command subcommand).2.2 = some q := by
  unfold canAffordCommand jsGt
  rw [hp, hq]
  refine ⟨by simp, fun hpq => by simp [hpq], rfl, rfl⟩

/-- Claim C1 witness: a user holding exactly the 5-point price of the trivia
command cannot afford it. -/
theorem canAffordCommand_strict_greater_witness :
    getUserPoints dbC1 "ursa" = some 5 ∧
    getCommandPrice dbC1 "trivia" none = some 5 ∧
    (canAffordCommand dbC1 "ursa" "trivia" none).1 = false :=
  ⟨rfl, rfl,
    (canAffordCommand_strict_greater dbC1 "ursa" "trivia" none 5 5 rfl rfl).2.1 rfl⟩

/-- Claim C2 (code defect): with the stream live and the configured live
payout amount equal to 0, the run is NOT skipped — the payment loop still
runs (crediting alice her rank bonus of 3 on top of the zero payout) and both
`lastPayout` and `lastUserList` are overwritten, where the claim requires the
run to change nothing. The offline branch has the early return; the live
branch lacks it. -/
theorem run_live_nonpositive_amount_still_mutates :
    envC2.isLive = true ∧
    getPayoutAmount envC2.settings false = 0 ∧
    (run envC2 stC2).2 = RunOutcome.completed ∧
    (run envC2 stC2).1.cache.lastPayout = some 100 ∧
    stC2.cache.lastPayout = some 0 ∧
    dbPoints (run envC2 stC2).1.db "alice" = some 13 ∧
    dbPoints stC2.db "alice" = some 10 :=
  ⟨rfl, rfl, rfl, rfl, rfl, rfl, rfl⟩

/-- Claim C3 counterexample: a database whose `subcommands` table stores 99
under the parent name `quote` and 10 under the subcommand name `add`.
`getCommandPrice` resolves the (`quote`, `add`) pair to 99 — the row keyed by
the parent name — while the claim (formalised by `specCommandPrice`) says the
subcommand entry's 10. -/
theorem getCommandPrice_subcommand_key_counterexample :
    getCommandPrice dbC3 "quote" (some "add") = some 99 ∧
    specCommandPrice dbC3 "quote" (some "add") = some 10 ∧
    getCommandPrice dbC3 "quote" (some "add") ≠
      specCommandPrice dbC3 "quote" (some "add") :=
  ⟨rfl, rfl, by decide⟩

/-- Claim C3 amended: with a subcommand present, the resolved price is read
from the `subcommands` table under the PARENT command name — so it is the
same for every subcommand of that command — with the `-1` sentinel inheriting
the parent price; with no subcommand it is the command price. -/
theorem getCommandPrice_parent_keyed (db : DB) (cmd : String) (s₁ s₂ : String) :
    getCommandPrice db cmd (some s₁) = getCommandPrice db cmd (some s₂) ∧
    (dbGet db.subcommands cmd = some (-1) →
      getCommandPrice db cmd (some s₁) = dbGet db.commands cmd) ∧
    (∀ v : Int, dbGet db.subcommands cmd = some v → v ≠ -1 →
      getCommandPrice db cmd (some s₁) = some v) ∧
    getCommandPrice db cmd none = dbGet db.commands cmd := by
  refine ⟨rfl, ?_, ?_, rfl⟩
  · intro h; simp [getCommandPrice, h]
  · intro v hv hne; simp [getCommandPrice, hv, hne]

/-- Claim C3 amended witness: both subcommands of `quote` resolve to the
price stored under the parent name. -/
theorem getCommandPrice_parent_keyed_witness :
    getCommandPrice dbC3 "quote" (some "add") =
      getCommandPrice dbC3 "quote" (some "edit") ∧
    getCommandPrice dbC3 "quote" (some "add") = some 99 :=
  ⟨(getCommandPrice_parent_keyed dbC3 "quote" "add" "edit").1,
   (getCommandPrice_parent_keyed dbC3 "quote" "add" "edit").2.2.1 99 rfl (by decide)⟩

/-- Claim C4: when every policy check passes, the command is not custom and
the resolved handler throws, the dispatch catches the error and returns
normally with only the handler invocation and the error log as effects: no
cooldown is started, no points are debited, no completion event is emitted. -/
theorem runCommand_handler_error_no_commit (env : CoreEnv) (event : BotEvent)
    (e : String)
    (hex : env.commandExists event.command none = true)
    (hen : env.commandIsEnabled event.command (getSubcommand env event) = true)
    (hcd : env.cooldownsEnabled = false ∨
      env.isOnCooldown event.command event.sender (getSubcommand env event) = 0)
    (hperm : ¬ event.groupID >
      env.commandPermission event.command (getSubcommand env event))
    (haff : env.pointsEnabled = false ∨
      (env.canAffordCommand event.sender event.command (getSubcommand env event)).1 = true)
    (hcustom : env.isCustom event.command = false)
    (hrun : env.runnerResult event.command = Except.error e) :
    runCommand env event =
      ({ Effects.empty with logs := [e], invokedHandlers := [event.command] },
       DispatchOutcome.handlerFailed e) := by
  rcases hcd with h0 | h0 <;> rcases haff with h1 | h1 <;>
    simp [runCommand, hex, hen, hperm, hcustom, hrun, h0, h1]

/-- Claim C4 witness: a handler throwing `boom` yields exactly the caught
outcome with no committed side effects. -/
theorem runCommand_handler_error_no_commit_witness :
    runCommand envC4 eventC4 =
      ({ Effects.empty with logs := ["boom"], invokedHandlers := ["trivia"] },
       DispatchOutcome.handlerFailed "boom") :=
  runCommand_handler_error_no_commit envC4 eventC4 "boom" rfl rfl (Or.inr rfl)
    (by decide) (Or.inr rfl) rfl rfl

/-- Claim C5: an event naming an unregistered command produces exactly one
log line and nothing else — no whisper, no response, no handler invocation,
no cooldown write, no debit, no completion event. -/
theorem runCommand_unregistered_silent (env : CoreEnv) (event : BotEvent)
    (h : env.commandExists event.command none = false) :
    runCommand env event =
      ({ Effects.empty with logs := [notRegisteredMsg event.command] },
       DispatchOutcome.notRegistered) := by
  simp [runCommand, h]

/-- Claim C5 witness: dispatching the unregistered `nope` command logs and
does nothing else. -/
theorem runCommand_unregistered_silent_witness :
    runCommand envC5 eventC5 =
      ({ Effects.empty with logs := [notRegisteredMsg "nope"] },
       DispatchOutcome.notRegistered) :=
  runCommand_unregistered_silent envC5 eventC5 rfl

/-- Claim C6 (code defect): a due live payout cycle whose eligible user needs
the group-bonus fallback crashes with the `ReferenceError` raised by
`getGroupBonus`; bob — present in the previous cycle's user list — is not
paid, and `lastUserList` and `lastPayout` are not advanced, where the claim
requires the due cycle to pay him and then advance both. -/
theorem run_due_cycle_crashes_before_advancing :
    getPayoutAmount envC6.settings false = 6 ∧
    getPayoutInterval envC6.settings false = 5 ∧
    stC6.cache.lastUserList = some ["bob"] ∧
    run envC6 stC6 = (stC6, RunOutcome.crashed JsError.referenceError) :=
  ⟨rfl, rfl, rfl, rfl⟩

/-- Claim C7 (code defect): when the rank bonus is unconfigured (0) and a
group bonus of 5 is stored for the user's permission level, the bonus
expression does not fall back to the group bonus — `getGroupBonus` raises a
`ReferenceError` because the source returns the undeclared
`_storedGroupBonus`. -/
theorem getGroupBonus_fallback_reference_error :
    getRankBonus dbC7 1 = 0 ∧
    dbGetInt dbC7.groups 2 = some 5 ∧
    resolveBonus dbC7 { permission := 2, rank := 1, points := 0 } =
      Except.error JsError.referenceError :=
  ⟨rfl, rfl, rfl⟩

/-- Claim C8: once the existence, enablement and cooldown stages pass, the
dispatch rejects with a logged whisper exactly when the sender's group level
strictly exceeds the resolved permission level, committing nothing; otherwise
it reaches the affordability stage. -/
theorem runCommand_permission_gate (env : CoreEnv) (event : BotEvent)
    (hex : env.commandExists event.command none = true)
    (hen : env.commandIsEnabled event.command (getSubcommand env event) = true)
    (hcd : env.cooldownsEnabled = false ∨
      env.isOnCooldown event.command event.sender (getSubcommand env event) = 0) :
    (event.groupID > env.commandPermission event.command (getSubcommand env event) →
      runCommand env event =
        ({ Effects.empty with
            logs := [permissionLogMsg event.command event.sender],
            whispers := [(event.sender, permissionNoticeMsg event.command)] },
         DispatchOutcome.noPermission)) ∧
    (¬ event.groupID > env.commandPermission event.command (getSubcommand env event) →
      reachedAffordability (runCommand env event).2 = true) := by
  constructor
  · intro hgt
    rcases hcd with h0 | h0 <;> simp [runCommand, hex, hen, hgt, h0]
  · intro hle
    rcases hcd with h0 | h0 <;>
      rcases hrun : env.runnerResult event.command with e | u <;>
        by_cases hpe : env.pointsEnabled ∧
          (env.canAffordCommand event.sender event.command
            (getSubcommand env event)).1 = false <;>
          by_cases hcu : env.isCustom event.command = true <;>
            simp [runCommand, hex, hen, hle, h0, hrun, hpe, hcu,
              reachedAffordability, commitEffects]

/-- Claim C8 witness: group level 3 against threshold 2 rejects with the
permission notice and commits nothing. -/
theorem runCommand_permission_gate_witness :
    runCommand envC8 eventC8 =
      ({ Effects.empty with
          logs := [permissionLogMsg "8ball" "mallory"],
          whispers := [("mallory", permissionNoticeMsg "8ball")] },
       DispatchOutcome.noPermission) :=
  (runCommand_permission_gate envC8 eventC8 rfl rfl (Or.inr rfl)).1 (by decide)

/-- Claim C9: adding the same (channel, listener) pair twice through the
`on` override with the default `single` argument leaves exactly one
registration, and an emission on that channel invokes the listener exactly
once. -/
theorem on_twice_single_listener (b : EventBus) (channel : String) (fn : Nat)
    (h : (channel, fn) ∉ b.listeners) :
    ((b.on channel fn).on channel fn).listeners.count (channel, fn) = 1 ∧
    (((b.on channel fn).on channel fn).emitCalls channel).count fn = 1 := by
  have hlist : ((b.on channel fn).on channel fn).listeners =
      b.listeners ++ [(channel, fn)] := by
    show ((b.listeners.erase (channel, fn) ++ [(channel, fn)]).erase (channel, fn))
        ++ [(channel, fn)] = b.listeners ++ [(channel, fn)]
    rw [List.erase_of_not_mem h, List.erase_append_right _ h]
    simp
  have hcount : ((b.on channel fn).on channel fn).listeners.count (channel, fn) = 1 := by
    rw [hlist, List.count_append, List.count_eq_zero.mpr h]
    simp
  refine ⟨hcount, ?_⟩
  show ((((b.on channel fn).on channel fn).listeners.filter
      (fun l => l.1 == channel)).map Prod.snd).count fn = 1
  rw [count_filter_map_snd, hcount]

/-- Claim C9 witness: registering listener 7 on `bot:ready` twice on an empty
bus leaves one registration and one invocation per emission. -/
theorem on_twice_single_listener_witness :
    ((EventBus.on (EventBus.on ⟨[]⟩ "bot:ready" 7) "bot:ready" 7).listeners.count
      ("bot:ready", 7) = 1) ∧
    (((EventBus.on (EventBus.on ⟨[]⟩ "bot:ready" 7) "bot:ready" 7).emitCalls
      "bot:ready").count 7 = 1) :=
  on_twice_single_listener ⟨[]⟩ "bot:ready" 7 (by simp)

/-- Claim C10: the legacy cooldown accessor replaces a missing row or a
stored 0 by the default 30, and never returns 0. -/
theorem getCooldown_never_zero (store : String → Option Int) (cmd : String) :
    ((store cmd = none ∨ store cmd = some 0) → getCooldown store cmd = 30) ∧
    getCooldown store cmd ≠ 0 := by
  constructor
  · rintro (h | h) <;> simp [getCooldown, h]
  · cases hs : store cmd with
    | none => simp [getCooldown, hs]
    | some v =>
      by_cases hv : v = 0 <;> simp [getCooldown, hs, hv]

/-- Claim C10 witness: a stored 0 for the 8ball command reads back as 30. -/
theorem getCooldown_never_zero_witness :
    (storeC10 "8ball" = none ∨ storeC10 "8ball" = some 0) ∧
    getCooldown storeC10 "8ball" = 30 ∧
    getCooldown storeC10 "8ball" ≠ 0 :=
  ⟨Or.inr rfl, (getCooldown_never_zero storeC10 "8ball").1 (Or.inr rfl),
   (getCooldown_never_zero storeC10 "8ball").2⟩

end Singularity
